import Mathlib

/-!
Verification of the Python client in `examples/python-client.py` of the
persona-mcp repository (class `PersonasMCPClient` and the `main` driver).

The embedding is a shallow one: JSON values are an inductive type, the
HTTP exchange is an oracle value supplied to each operation, Python
exceptions are an explicit error type, and the mutable client object is
passed and returned explicitly.
-/

/-- Decoded JSON values, as produced by `response.json()`.  Python's
`json.loads` yields `None`/`bool`/numbers/`str`/`list`/`dict`; objects are
kept as association lists. -/
inductive Json where
  | null : Json
  | bool (b : Bool) : Json
  | num (n : Int) : Json
  | str (s : String) : Json
  | arr (xs : List Json) : Json
  | obj (fields : List (String × Json)) : Json
deriving BEq, Repr

/-- Python exceptions that the client code can raise.  `exception m` is a
plain `Exception(m)` (the two explicit `raise` sites in `call_tool`);
`requestException m` covers `requests.exceptions.RequestException` and its
subclasses (connection failures and the `HTTPError` from
`raise_for_status`); the remaining constructors are the dynamic-typing
errors Python raises on ill-shaped data. -/
inductive PyErr where
  | exception (msg : String) : PyErr
  | requestException (msg : String) : PyErr
  | attributeError (msg : String) : PyErr
  | typeError (msg : String) : PyErr
  | keyError (key : String) : PyErr
deriving BEq, DecidableEq, Repr

/-- Outcome of one HTTP exchange, supplied by the environment: either a
response (status code, reason phrase, decoded JSON body) or a
network-level failure (a `requests.exceptions.RequestException` whose
`str` is `msg`). -/
inductive HttpOutcome where
  | response (status : Nat) (reason : String) (body : Json) : HttpOutcome
  | networkFailure (msg : String) : HttpOutcome
deriving BEq, Repr

/-- `requests.Response.raise_for_status` raises `HTTPError` exactly for
status codes in 400..599, with a message built from the status, the
reason and the URL (`"%s Client Error: %s for url: %s"` /
`"%s Server Error: %s for url: %s"`). -/
def httpErrorMsg (status : Nat) (reason url : String) : String :=
  if status < 500 then
    toString status ++ " Client Error: " ++ reason ++ " for url: " ++ url
  else
    toString status ++ " Server Error: " ++ reason ++ " for url: " ++ url

/-- Whether `raise_for_status` raises for this status code. -/
def raisesForStatus (status : Nat) : Bool :=
  400 ≤ status && status < 600

/-- `raise_for_status` applied to an HTTP outcome: `some e` is the raised
exception, `none` means the call returned normally.  A network failure
surfaces from the `get`/`post` call itself. -/
def raiseForStatus (url : String) : HttpOutcome → Option PyErr
  | .networkFailure msg => some (.requestException msg)
  | .response status reason _ =>
      if raisesForStatus status then
        some (.requestException (httpErrorMsg status reason url))
      else
        none

mutual

/-- Python `repr()` of a decoded JSON value (used by the f-string in
`call_tool`'s error message, via `str` of containers).  String escaping
inside `repr` is not modelled. -/
def pyRepr : Json → String
  | .null => "None"
  | .bool true => "True"
  | .bool false => "False"
  | .num n => toString n
  | .str s => "\x27" ++ s ++ "\x27"
  | .arr xs => "[" ++ pyReprList xs ++ "]"
  | .obj fs => "\x7b" ++ pyReprFields fs ++ "\x7d"

/-- Comma-separated `repr`s of the elements of a Python list. -/
def pyReprList : List Json → String
  | [] => ""
  | [x] => pyRepr x
  | x :: xs => pyRepr x ++ ", " ++ pyReprList xs

/-- Comma-separated `repr`s of the entries of a Python dict. -/
def pyReprFields : List (String × Json) → String
  | [] => ""
  | [f] => "\x27" ++ f.1 ++ "\x27: " ++ pyRepr f.2
  | f :: fs => "\x27" ++ f.1 ++ "\x27: " ++ pyRepr f.2 ++ ", " ++ pyReprFields fs

end

/-- Python `str()` of a decoded JSON value: like `repr` except on
strings, where it returns the string itself. -/
def pyStr : Json → String
  | .str s => s
  | j => pyRepr j

/-- Last-binding lookup in a decoded JSON object (Python dicts have
unique keys; `json.loads` keeps the last duplicate, so lookup scans from
the right). -/
def Json.lookup (fields : List (String × Json)) (key : String) : Option Json :=
  (fields.reverse.find? (fun f => f.1 == key)).map (fun f => f.2)

/-- Python `key in value` for a string `key` and a decoded JSON `value`:
key test on dicts, membership on lists, substring test on strings,
`TypeError` otherwise. -/
def pyIn (key : String) : Json → Except PyErr Bool
  | .obj fields => .ok (fields.any (fun f => f.1 == key))
  | .arr xs => .ok (xs.any (fun x => x == Json.str key))
  | .str s => .ok (key.isEmpty || (s.splitOn key).length != 1)
  | _ => .error (.typeError "argument of type is not iterable")

/-- Python `value[key]` for a string `key`: dict subscript (`KeyError`
when absent), `TypeError` on any other value. -/
def pySubscript (j : Json) (key : String) : Except PyErr Json :=
  match j with
  | .obj fields =>
      match Json.lookup fields key with
      | some v => .ok v
      | none => .error (.keyError key)
  | _ => .error (.typeError "indices must be integers")

/-- Python `value.get(key, default)`: defined on dicts only;
`AttributeError` on any other value. -/
def pyDictGet (j : Json) (key : String) (dflt : Json) : Except PyErr Json :=
  match j with
  | .obj fields => .ok ((Json.lookup fields key).getD dflt)
  | _ => .error (.attributeError "object has no attribute get")

/-- The client object: the two base URLs, an opaque handle for the
reusable `requests.Session`, and the request-id counter. -/
structure PersonasMCPClient where
  mcp_url : String
  api_url : String
  session : Nat
  request_id : Nat
deriving BEq, Repr, DecidableEq

/-- `PersonasMCPClient.__init__`: stores the URLs, opens a session and
starts the counter at 0. -/
def PersonasMCPClient.init (mcp_url : String) (api_url : String) : PersonasMCPClient :=
  { mcp_url := mcp_url, api_url := api_url, session := 0, request_id := 0 }

/-- `PersonasMCPClient._get_request_id`: increments the counter and
returns its new value, together with the updated client. -/
def PersonasMCPClient._get_request_id (c : PersonasMCPClient) :
    Nat × PersonasMCPClient :=
  let c' := { c with request_id := c.request_id + 1 }
  (c'.request_id, c')

/-- One HTTP POST as issued by `session.post(url, json=body, headers=headers)`. -/
structure HttpPost where
  url : String
  body : Json
  headers : List (String × String)
deriving BEq, Repr

/-- The JSON-RPC envelope `call_tool` builds. -/
def callToolEnvelope (tool_name : String) (arguments : Json) (rid : Nat) : Json :=
  Json.obj
    [ ("jsonrpc", Json.str "2.0"),
      ("method", Json.str "tools/call"),
      ("params", Json.obj [("name", Json.str tool_name), ("arguments", arguments)]),
      ("id", Json.num rid) ]

/-- The body of `call_tool`'s `try` block after the POST returned
`response`: `raise_for_status`, decode, inspect `"error"`, and return
`result.get("result", {})`.  A raised `RequestException` is rewrapped as
`Exception("Request failed: " + str(e))` by the `except` clause; every
other exception propagates unchanged. -/
def callToolHandle (url : String) (net : HttpOutcome) : Except PyErr Json :=
  match net with
  | .networkFailure msg => .error (.exception ("Request failed: " ++ msg))
  | .response status reason body =>
      if raisesForStatus status then
        .error (.exception ("Request failed: " ++ httpErrorMsg status reason url))
      else
        match pyIn "error" body with
        | .error e => .error e
        | .ok true =>
            match pySubscript body "error" with
            | .error e => .error e
            | .ok errval =>
                match pyDictGet errval "message" (Json.str "Unknown error") with
                | .error e => .error e
                | .ok msgval => .error (.exception ("MCP Error: " ++ pyStr msgval))
        | .ok false =>
            match pyDictGet body "result" (Json.obj []) with
            | .error e => .error e
            | .ok r => .ok r

/-- `PersonasMCPClient.call_tool`: builds the envelope (consuming one
request id), posts it to `mcp_url` with a JSON content-type header, and
handles the response.  Returns the POST that was issued, the Python
outcome (`ok` result or raised exception), and the updated client. -/
def PersonasMCPClient.call_tool (c : PersonasMCPClient) (tool_name : String)
    (arguments : Json) (net : HttpOutcome) :
    HttpPost × Except PyErr Json × PersonasMCPClient :=
  let r := c._get_request_id
  let request := callToolEnvelope tool_name arguments r.1
  let post : HttpPost :=
    { url := c.mcp_url, body := request,
      headers := [("Content-Type", "application/json")] }
  (post, callToolHandle c.mcp_url net, r.2)

/-- `PersonasMCPClient.get_personas`: GET `{api_url}/personas`,
`raise_for_status`, return the decoded body.  The client object is not
modified. -/
def PersonasMCPClient.get_personas (c : PersonasMCPClient) (net : HttpOutcome) :
    Except PyErr Json × PersonasMCPClient :=
  match raiseForStatus (c.api_url ++ "/personas") net with
  | some e => (.error e, c)
  | none =>
      match net with
      | .response _ _ body => (.ok body, c)
      | .networkFailure msg => (.error (.requestException msg), c)

/-- `PersonasMCPClient.get_persona`: GET `{api_url}/personas/{id}`,
`raise_for_status`, return the decoded body.  The client object is not
modified. -/
def PersonasMCPClient.get_persona (c : PersonasMCPClient) (persona_id : String)
    (net : HttpOutcome) : Except PyErr Json × PersonasMCPClient :=
  match raiseForStatus (c.api_url ++ "/personas/" ++ persona_id) net with
  | some e => (.error e, c)
  | none =>
      match net with
      | .response _ _ body => (.ok body, c)
      | .networkFailure msg => (.error (.requestException msg), c)

/-- Whether `p` is a prefix of `m`, computed on the underlying
character lists. -/
def strHasPrefix (p m : String) : Bool :=
  p.data.isPrefixOf m.data

/-- The spec's `RemoteError` kind: the `Exception` raised at the
`"MCP Error: ..."` site of `call_tool`, recognisable by its message. -/
def isRemoteError : PyErr → Bool
  | .exception m => strHasPrefix "MCP Error: " m
  | _ => false

/-- The spec's `TransportError` kind: a raw `RequestException`
(connection failure or `raise_for_status` in the GET helpers) or the
`Exception` raised at the `"Request failed: ..."` rewrap site of
`call_tool`, recognisable by its message. -/
def isTransportError : PyErr → Bool
  | .exception m => strHasPrefix "Request failed: " m
  | .requestException _ => true
  | _ => false

/-- Run a sequence of `call_tool` invocations on a client, collecting
the POSTs that were issued and threading the client state. -/
def runCalls (c : PersonasMCPClient) :
    List (String × Json × HttpOutcome) → List HttpPost × PersonasMCPClient
  | [] => ([], c)
  | (name, args, net) :: rest =>
      let r := c.call_tool name args net
      let rec' := runCalls r.2.2 rest
      (r.1 :: rec'.1, rec'.2)

/-- The `"id"` field of a POSTed envelope. -/
def envelopeId (p : HttpPost) : Option Json :=
  match p.body with
  | .obj fields => Json.lookup fields "id"
  | _ => none

/-- The URL of the preflight liveness check in `main`. -/
def healthUrl : String := "http://localhost:3000/health"

/-- The observable shape of a run of `main`, to the depth the claims
need: whether `sys.exit` was reached at the preflight check, and the
name of the first tool invocation attempted (if any). -/
structure MainTrace where
  exitCode : Option Nat
  firstToolInvoked : Option String
deriving BEq, Repr, DecidableEq

/-- `main`: creates the client, issues `GET healthUrl` followed by
`raise_for_status`; any `requests.exceptions.RequestException` (the only
exception that call can raise) is caught and the program exits with code
1 before any example runs.  Otherwise the six examples run in order; the
first HTTP action of the whole example sequence is the unconditional
`client.call_tool("recommend-persona", task)` in
`example_1_get_recommendations`, so once the preflight passes a tool
invocation is always attempted. -/
def mainRun (health : HttpOutcome) : MainTrace :=
  match raiseForStatus healthUrl health with
  | some _ => { exitCode := some 1, firstToolInvoked := none }
  | none => { exitCode := none, firstToolInvoked := some "recommend-persona" }

/-- Well-formedness of a tool-call response, following the spec's
"well-formed response": a network failure (nothing to decode), or a
response whose decoded body is a mapping and whose `"error"` field, when
present, is itself a mapping.  This is the shape under which the
two-error-kind discipline of the spec holds. -/
def wellFormedMCPResponse : HttpOutcome → Prop
  | .networkFailure _ => True
  | .response _ _ body =>
      ∃ fields, body = Json.obj fields ∧
        ∀ v, Json.lookup fields "error" = some v → ∃ efields, v = Json.obj efields

/-! ### Helper lemmas -/

theorem Json.lookup_eq_none_iff (fs : List (String × Json)) (k : String) :
    Json.lookup fs k = none ↔ fs.any (fun f => f.1 == k) = false := by
  simp [Json.lookup, List.find?_eq_none, List.any_eq_true]

theorem Json.lookup_isSome_iff (fs : List (String × Json)) (k : String) :
    (Json.lookup fs k).isSome = true ↔ fs.any (fun f => f.1 == k) = true := by
  simp [Json.lookup, List.find?_isSome, List.any_eq_true]

theorem strHasPrefix_append (p s : String) : strHasPrefix p (p ++ s) = true := by
  simp only [strHasPrefix, String.data_append, List.isPrefixOf_iff_prefix]
  exact List.prefix_append _ _

theorem isTransportError_request_failed (m : String) :
    isTransportError (PyErr.exception ("Request failed: " ++ m)) = true := by
  simp only [isTransportError]
  exact strHasPrefix_append _ _

theorem isRemoteError_mcp_error (m : String) :
    isRemoteError (PyErr.exception ("MCP Error: " ++ m)) = true := by
  simp only [isRemoteError]
  exact strHasPrefix_append _ _

theorem remote_transport_disjoint (e : PyErr) :
    ¬ (isRemoteError e = true ∧ isTransportError e = true) := by
  rintro ⟨h1, h2⟩
  cases e with
  | exception m =>
      simp only [isRemoteError, isTransportError, strHasPrefix] at h1 h2
      rw [List.isPrefixOf_iff_prefix] at h1 h2
      rcases List.prefix_or_prefix_of_prefix h1 h2 with h | h
      · exact absurd h (by decide)
      · exact absurd h (by decide)
  | requestException m => simp [isRemoteError] at h1
  | attributeError m => simp [isRemoteError] at h1
  | typeError m => simp [isRemoteError] at h1
  | keyError m => simp [isRemoteError] at h1

theorem isRemoteError_request_failed (m : String) :
    isRemoteError (PyErr.exception ("Request failed: " ++ m)) = false := by
  cases hre : isRemoteError (PyErr.exception ("Request failed: " ++ m)) with
  | false => rfl
  | true =>
      exact absurd ⟨hre, isTransportError_request_failed m⟩
        (remote_transport_disjoint _)

/-- `callToolHandle` on a success-status response whose body is a
mapping, expressed through the dict lookups it performs. -/
theorem callToolHandle_obj (url : String) (status : Nat) (reason : String)
    (fields : List (String × Json)) (hstatus : raisesForStatus status = false) :
    callToolHandle url (HttpOutcome.response status reason (Json.obj fields)) =
      match Json.lookup fields "error" with
      | some (Json.obj efields) =>
          Except.error (PyErr.exception ("MCP Error: " ++
            pyStr ((Json.lookup efields "message").getD (Json.str "Unknown error"))))
      | some _ => Except.error (PyErr.attributeError "object has no attribute get")
      | none => Except.ok ((Json.lookup fields "result").getD (Json.obj [])) := by
  cases hl : Json.lookup fields "error" with
  | none =>
      have hany : fields.any (fun f => f.1 == "error") = false :=
        (Json.lookup_eq_none_iff fields "error").mp hl
      simp [callToolHandle, hstatus, pyIn, hany, pyDictGet]
  | some v =>
      have hany : fields.any (fun f => f.1 == "error") = true := by
        rw [← Json.lookup_isSome_iff, hl]
        rfl
      cases v <;>
        simp [callToolHandle, hstatus, pyIn, hany, pySubscript, hl, pyDictGet]

theorem runCalls_length (c : PersonasMCPClient)
    (calls : List (String × Json × HttpOutcome)) :
    (runCalls c calls).1.length = calls.length := by
  induction calls generalizing c with
  | nil => rfl
  | cons hd tl ih =>
      obtain ⟨name, args, net⟩ := hd
      simp [runCalls, ih]

theorem runCalls_envelopeId (c : PersonasMCPClient)
    (calls : List (String × Json × HttpOutcome)) (i : Nat)
    (h : i < (runCalls c calls).1.length) :
    envelopeId ((runCalls c calls).1[i]) =
      some (Json.num (c.request_id + i + 1)) := by
  induction calls generalizing c i with
  | nil => simp [runCalls] at h
  | cons hd tl ih =>
      obtain ⟨name, args, net⟩ := hd
      cases i with
      | zero => rfl
      | succ n =>
          have h' : n < (runCalls (c.call_tool name args net).2.2 tl).1.length := by
            have hlen := runCalls_length (c.call_tool name args net).2.2 tl
            have hlen' := runCalls_length c ((name, args, net) :: tl)
            simp [List.length_cons] at hlen'
            omega
          have hrec := ih (c.call_tool name args net).2.2 n h'
          have hstep :
              (runCalls c ((name, args, net) :: tl)).1[n + 1] =
                (runCalls (c.call_tool name args net).2.2 tl).1[n] := by
            simp [runCalls]
          rw [hstep, hrec]
          have harith : (c.call_tool name args net).2.2.request_id = c.request_id + 1 := rfl
          rw [harith]
          congr 2
          push_cast
          ring

/-- C2: on a fresh client, the `"id"` field of the i-th (0-based)
envelope POSTed by a sequence of `call_tool` invocations is `i + 1`:
ids start at 1 and increase by exactly 1 across successive calls. -/
theorem C2_envelope_ids (mcp_url api_url : String)
    (calls : List (String × Json × HttpOutcome)) (i : Nat)
    (h : i < (runCalls (PersonasMCPClient.init mcp_url api_url) calls).1.length) :
    envelopeId ((runCalls (PersonasMCPClient.init mcp_url api_url) calls).1[i]) =
      some (Json.num (i + 1)) := by
  have hgen := runCalls_envelopeId (PersonasMCPClient.init mcp_url api_url) calls i h
  simpa [PersonasMCPClient.init] using hgen

/-- Witness for C2 at a concrete two-call run: the second envelope
carries id 2. -/
theorem C2_envelope_ids_witness :
    envelopeId ((runCalls
        (PersonasMCPClient.init "http://localhost:3000/mcp" "http://localhost:3000/api")
        [("recommend-persona", Json.obj [("title", Json.str "t")],
            HttpOutcome.response 200 "OK" (Json.obj [])),
         ("compare-personas", Json.obj [],
            HttpOutcome.networkFailure "connection refused")]).1[1]) =
      some (Json.num 2) :=
  C2_envelope_ids "http://localhost:3000/mcp" "http://localhost:3000/api"
    [("recommend-persona", Json.obj [("title", Json.str "t")],
        HttpOutcome.response 200 "OK" (Json.obj [])),
     ("compare-personas", Json.obj [],
        HttpOutcome.networkFailure "connection refused")] 1 (by decide)

/-- C1 counterexample: on a success-status response whose decoded
mapping contains an `"error"` field whose value is a string rather than a
mapping, `call_tool` fails with an `AttributeError` (from
`result["error"].get(...)`), not with a `RemoteError`; so the claim as
stated — every response containing an `"error"` field yields a
`RemoteError` — is false at this input. -/
theorem C1_counterexample :
    raisesForStatus 200 = false ∧
    ((PersonasMCPClient.init "http://localhost:3000/mcp" "http://localhost:3000/api").call_tool
        "recommend-persona" (Json.obj [("title", Json.str "t")])
        (HttpOutcome.response 200 "OK" (Json.obj [("error", Json.str "boom")]))).2.1 =
      Except.error (PyErr.attributeError "object has no attribute get") ∧
    isRemoteError (PyErr.attributeError "object has no attribute get") = false :=
  ⟨rfl, rfl, rfl⟩

/-- C1 amended: on a success-status response whose decoded mapping
contains an `"error"` field whose value is itself a mapping, `call_tool`
fails with a `RemoteError` carrying the server-supplied message
(defaulting to "Unknown error" when absent); and whenever the mapping
contains an `"error"` field of any shape, the call never returns a
successful result. -/
theorem C1_remote_error_amended (c : PersonasMCPClient) (tool : String)
    (args : Json) (status : Nat) (reason : String)
    (fields : List (String × Json))
    (hstatus : raisesForStatus status = false)
    (herr : (Json.lookup fields "error").isSome = true) :
    (∀ efields, Json.lookup fields "error" = some (Json.obj efields) →
        (c.call_tool tool args
            (HttpOutcome.response status reason (Json.obj fields))).2.1 =
          Except.error (PyErr.exception ("MCP Error: " ++
            pyStr ((Json.lookup efields "message").getD (Json.str "Unknown error")))) ∧
        isRemoteError (PyErr.exception ("MCP Error: " ++
            pyStr ((Json.lookup efields "message").getD (Json.str "Unknown error")))) = true) ∧
    (∀ r, (c.call_tool tool args
        (HttpOutcome.response status reason (Json.obj fields))).2.1 ≠ Except.ok r) := by
  have hhandle := callToolHandle_obj c.mcp_url status reason fields hstatus
  have hcall : (c.call_tool tool args
      (HttpOutcome.response status reason (Json.obj fields))).2.1 =
        callToolHandle c.mcp_url (HttpOutcome.response status reason (Json.obj fields)) := rfl
  constructor
  · intro efields hef
    rw [hcall, hhandle, hef]
    exact ⟨rfl, isRemoteError_mcp_error _⟩
  · intro r hr
    rw [hcall, hhandle] at hr
    cases hl : Json.lookup fields "error" with
    | none => rw [hl] at herr; simp at herr
    | some v => rw [hl] at hr; cases v <;> simp at hr

/-- Witness for C1 amended, at a concrete error response carrying the
message "boom". -/
theorem C1_remote_error_amended_witness :
    ((PersonasMCPClient.init "http://localhost:3000/mcp" "http://localhost:3000/api").call_tool
        "recommend-persona" (Json.obj [])
        (HttpOutcome.response 200 "OK"
          (Json.obj [("error", Json.obj [("message", Json.str "boom")])]))).2.1 =
      Except.error (PyErr.exception ("MCP Error: " ++
        pyStr ((Json.lookup [("message", Json.str "boom")] "message").getD
          (Json.str "Unknown error")))) ∧
    isRemoteError (PyErr.exception ("MCP Error: " ++
        pyStr ((Json.lookup [("message", Json.str "boom")] "message").getD
          (Json.str "Unknown error")))) = true :=
  (C1_remote_error_amended
      (PersonasMCPClient.init "http://localhost:3000/mcp" "http://localhost:3000/api")
      "recommend-persona" (Json.obj []) 200 "OK"
      [("error", Json.obj [("message", Json.str "boom")])]
      rfl rfl).1 [("message", Json.str "boom")] rfl

/-- C3: a non-success HTTP status (the 400..599 range `raise_for_status`
rejects, e.g. 500) makes `call_tool`, `get_personas` and `get_persona`
fail with the transport-error kind, and with no exception of any other
kind: the surfaced error is exactly the rewrapped `Exception("Request
failed: ...")` for `call_tool` and the raw `HTTPError` for the GET
helpers, and it is a transport error and not a remote error. -/
theorem C3_transport_error (c : PersonasMCPClient) (tool persona_id : String)
    (args : Json) (status : Nat) (reason : String) (body : Json)
    (h : 400 ≤ status ∧ status < 600) :
    ((c.call_tool tool args (HttpOutcome.response status reason body)).2.1 =
        Except.error (PyErr.exception
          ("Request failed: " ++ httpErrorMsg status reason c.mcp_url))) ∧
    isTransportError (PyErr.exception
        ("Request failed: " ++ httpErrorMsg status reason c.mcp_url)) = true ∧
    isRemoteError (PyErr.exception
        ("Request failed: " ++ httpErrorMsg status reason c.mcp_url)) = false ∧
    ((c.get_personas (HttpOutcome.response status reason body)).1 =
        Except.error (PyErr.requestException
          (httpErrorMsg status reason (c.api_url ++ "/personas")))) ∧
    isTransportError (PyErr.requestException
        (httpErrorMsg status reason (c.api_url ++ "/personas"))) = true ∧
    ((c.get_persona persona_id (HttpOutcome.response status reason body)).1 =
        Except.error (PyErr.requestException
          (httpErrorMsg status reason (c.api_url ++ "/personas/" ++ persona_id)))) ∧
    isTransportError (PyErr.requestException
        (httpErrorMsg status reason (c.api_url ++ "/personas/" ++ persona_id))) = true := by
  have hrs : raisesForStatus status = true := by
    simp [raisesForStatus]
    omega
  refine ⟨?_, isTransportError_request_failed _, isRemoteError_request_failed _,
    ?_, rfl, ?_, rfl⟩
  · show callToolHandle c.mcp_url (HttpOutcome.response status reason body) = _
    simp [callToolHandle, hrs]
  · simp [PersonasMCPClient.get_personas, raiseForStatus, hrs]
  · simp [PersonasMCPClient.get_persona, raiseForStatus, hrs]

/-- Witness for C3 at a simulated HTTP 500. -/
theorem C3_transport_error_witness :
    ((PersonasMCPClient.init "http://localhost:3000/mcp" "http://localhost:3000/api").call_tool
        "recommend-persona" (Json.obj [])
        (HttpOutcome.response 500 "Internal Server Error" Json.null)).2.1 =
      Except.error (PyErr.exception ("Request failed: " ++
        httpErrorMsg 500 "Internal Server Error" "http://localhost:3000/mcp")) ∧
    isTransportError (PyErr.exception ("Request failed: " ++
        httpErrorMsg 500 "Internal Server Error" "http://localhost:3000/mcp")) = true :=
  ⟨(C3_transport_error
      (PersonasMCPClient.init "http://localhost:3000/mcp" "http://localhost:3000/api")
      "recommend-persona" "security-analyst" (Json.obj []) 500 "Internal Server Error"
      Json.null ⟨by decide, by decide⟩).1,
   (C3_transport_error
      (PersonasMCPClient.init "http://localhost:3000/mcp" "http://localhost:3000/api")
      "recommend-persona" "security-analyst" (Json.obj []) 500 "Internal Server Error"
      Json.null ⟨by decide, by decide⟩).2.1⟩

/-- C4: on a success-status response whose decoded mapping has no
`"error"` field, `call_tool` returns the empty mapping when the
`"result"` field is absent, and returns the `"result"` field unchanged
when it is present. -/
theorem C4_result_field (c : PersonasMCPClient) (tool : String) (args : Json)
    (status : Nat) (reason : String) (fields : List (String × Json))
    (hstatus : raisesForStatus status = false)
    (herr : Json.lookup fields "error" = none) :
    (Json.lookup fields "result" = none →
        (c.call_tool tool args
            (HttpOutcome.response status reason (Json.obj fields))).2.1 =
          Except.ok (Json.obj [])) ∧
    (∀ v, Json.lookup fields "result" = some v →
        (c.call_tool tool args
            (HttpOutcome.response status reason (Json.obj fields))).2.1 =
          Except.ok v) := by
  have hhandle := callToolHandle_obj c.mcp_url status reason fields hstatus
  have hcall : (c.call_tool tool args
      (HttpOutcome.response status reason (Json.obj fields))).2.1 =
        callToolHandle c.mcp_url (HttpOutcome.response status reason (Json.obj fields)) := rfl
  constructor
  · intro hres
    rw [hcall, hhandle, herr, hres]
    rfl
  · intro v hres
    rw [hcall, hhandle, herr, hres]
    rfl

/-- Witness for C4: a result-free success response yields the empty
mapping, and a response with a `"result"` field yields it unchanged. -/
theorem C4_result_field_witness :
    ((PersonasMCPClient.init "http://localhost:3000/mcp" "http://localhost:3000/api").call_tool
        "get-recommendation-stats" (Json.obj [])
        (HttpOutcome.response 200 "OK" (Json.obj []))).2.1 =
      Except.ok (Json.obj []) ∧
    ((PersonasMCPClient.init "http://localhost:3000/mcp" "http://localhost:3000/api").call_tool
        "get-recommendation-stats" (Json.obj [])
        (HttpOutcome.response 200 "OK"
          (Json.obj [("result", Json.obj [("data", Json.num 7)])]))).2.1 =
      Except.ok (Json.obj [("data", Json.num 7)]) :=
  ⟨(C4_result_field
      (PersonasMCPClient.init "http://localhost:3000/mcp" "http://localhost:3000/api")
      "get-recommendation-stats" (Json.obj []) 200 "OK" [] rfl rfl).1 rfl,
   (C4_result_field
      (PersonasMCPClient.init "http://localhost:3000/mcp" "http://localhost:3000/api")
      "get-recommendation-stats" (Json.obj []) 200 "OK"
      [("result", Json.obj [("data", Json.num 7)])] rfl rfl).2
      (Json.obj [("data", Json.num 7)]) rfl⟩

/-- C5: every `call_tool` invocation — whatever the HTTP outcome, so
whether it returns a result or fails with either error kind — leaves the
client equal to the old client with `request_id` incremented by exactly
one, and hence changes no other field. -/
theorem C5_counter_frame (c : PersonasMCPClient) (tool : String) (args : Json)
    (net : HttpOutcome) :
    (c.call_tool tool args net).2.2 = { c with request_id := c.request_id + 1 } ∧
    (c.call_tool tool args net).2.2.mcp_url = c.mcp_url ∧
    (c.call_tool tool args net).2.2.api_url = c.api_url ∧
    (c.call_tool tool args net).2.2.session = c.session :=
  ⟨rfl, rfl, rfl, rfl⟩

/-- C6: `call_tool` issues an HTTP POST to the configured tool-invocation
URL whose JSON body is exactly the envelope with the `"jsonrpc": "2.0"`
protocol marker, method `"tools/call"`, params holding the tool name and
the argument mapping unmodified, and the freshly drawn request id, with a
header declaring JSON content. -/
theorem C6_post_envelope (c : PersonasMCPClient) (tool : String) (args : Json)
    (net : HttpOutcome) :
    (c.call_tool tool args net).1 =
      { url := c.mcp_url,
        body := Json.obj
          [ ("jsonrpc", Json.str "2.0"),
            ("method", Json.str "tools/call"),
            ("params", Json.obj [("name", Json.str tool), ("arguments", args)]),
            ("id", Json.num (c.request_id + 1)) ],
        headers := [("Content-Type", "application/json")] } :=
  rfl

/-- C7: on a successful HTTP response whose body decodes to a list,
`get_personas` returns exactly that list, structurally unchanged. -/
theorem C7_personas_verbatim (c : PersonasMCPClient) (status : Nat)
    (reason : String) (xs : List Json)
    (h : raisesForStatus status = false) :
    (c.get_personas (HttpOutcome.response status reason (Json.arr xs))).1 =
      Except.ok (Json.arr xs) := by
  simp [PersonasMCPClient.get_personas, raiseForStatus, h]

/-- Witness for C7 at a simulated two-element persona array. -/
theorem C7_personas_verbatim_witness :
    ((PersonasMCPClient.init "http://localhost:3000/mcp" "http://localhost:3000/api").get_personas
        (HttpOutcome.response 200 "OK" (Json.arr
          [ Json.obj [("id", Json.str "architect"), ("name", Json.str "Architect"),
                      ("role", Json.str "architect")],
            Json.obj [("id", Json.str "developer"), ("name", Json.str "Developer"),
                      ("role", Json.str "developer")] ]))).1 =
      Except.ok (Json.arr
        [ Json.obj [("id", Json.str "architect"), ("name", Json.str "Architect"),
                    ("role", Json.str "architect")],
          Json.obj [("id", Json.str "developer"), ("name", Json.str "Developer"),
                    ("role", Json.str "developer")] ]) :=
  C7_personas_verbatim
    (PersonasMCPClient.init "http://localhost:3000/mcp" "http://localhost:3000/api")
    200 "OK"
    [ Json.obj [("id", Json.str "architect"), ("name", Json.str "Architect"),
                ("role", Json.str "architect")],
      Json.obj [("id", Json.str "developer"), ("name", Json.str "Developer"),
                ("role", Json.str "developer")] ] rfl

/-- C8 counterexample: a 304 response to the preflight health check is a
non-2xx status, yet `raise_for_status` does not raise for it, so `main`
does not halt and proceeds to attempt the first tool invocation; the
claim that every non-2xx preflight status halts the run is false at this
input. -/
theorem C8_counterexample :
    ¬ (200 ≤ 304 ∧ 304 < 300) ∧
    (mainRun (HttpOutcome.response 304 "Not Modified" Json.null)).exitCode = none ∧
    (mainRun (HttpOutcome.response 304 "Not Modified" Json.null)).firstToolInvoked =
      some "recommend-persona" :=
  ⟨by decide, rfl, rfl⟩

/-- C8 amended: if the preflight GET to the health endpoint fails with a
network failure or a 4xx/5xx status (the statuses `raise_for_status`
rejects), `main` halts with exit code 1 and attempts no tool invocation;
and no run ever attempts a tool invocation unless the preflight
`raise_for_status` passed. -/
theorem C8_preflight_gate_amended (health : HttpOutcome)
    (h : (∃ msg, health = HttpOutcome.networkFailure msg) ∨
         ∃ status reason body, health = HttpOutcome.response status reason body ∧
           400 ≤ status ∧ status < 600) :
    ((mainRun health).exitCode = some 1 ∧ (mainRun health).firstToolInvoked = none) ∧
    ∀ g : HttpOutcome, (mainRun g).firstToolInvoked ≠ none →
      raiseForStatus healthUrl g = none := by
  constructor
  · rcases h with ⟨msg, rfl⟩ | ⟨status, reason, body, rfl, h1, h2⟩
    · exact ⟨rfl, rfl⟩
    · have hrs : raisesForStatus status = true := by
        simp [raisesForStatus]
        omega
      constructor <;> simp [mainRun, raiseForStatus, hrs]
  · intro g hg
    cases hrs : raiseForStatus healthUrl g with
    | none => rfl
    | some e =>
        exfalso
        apply hg
        simp [mainRun, hrs]

/-- Witness for C8 amended at a simulated connection failure. -/
theorem C8_preflight_gate_amended_witness :
    (mainRun (HttpOutcome.networkFailure "connection refused")).exitCode = some 1 ∧
    (mainRun (HttpOutcome.networkFailure "connection refused")).firstToolInvoked = none :=
  (C8_preflight_gate_amended (HttpOutcome.networkFailure "connection refused")
    (Or.inl ⟨"connection refused", rfl⟩)).1

/-- C9 counterexample: a success-status tool-call response whose
`"error"` field is a number makes `call_tool` fail with an
`AttributeError`, which is neither of the two advertised kinds; so the
claim that every failure is one of the two kinds is false at this
input. -/
theorem C9_counterexample :
    ((PersonasMCPClient.init "http://localhost:3000/mcp" "http://localhost:3000/api").call_tool
        "explain-persona-fit" (Json.obj [])
        (HttpOutcome.response 200 "OK" (Json.obj [("error", Json.num 5)]))).2.1 =
      Except.error (PyErr.attributeError "object has no attribute get") ∧
    isTransportError (PyErr.attributeError "object has no attribute get") = false ∧
    isRemoteError (PyErr.attributeError "object has no attribute get") = false :=
  ⟨rfl, rfl, rfl⟩

/-- C9 amended: on well-formed responses (body a mapping whose `"error"`
field, when present, is a mapping) every failure of `call_tool` is a
transport error or a remote error, every failure of the two GET helpers
is a transport error, and the two kinds are disjoint, so the caller can
tell which occurred. -/
theorem C9_two_error_kinds_amended (c : PersonasMCPClient)
    (tool persona_id : String) (args : Json) (net : HttpOutcome)
    (h : wellFormedMCPResponse net) :
    (∀ e, (c.call_tool tool args net).2.1 = Except.error e →
        isTransportError e = true ∨ isRemoteError e = true) ∧
    (∀ e, (c.get_personas net).1 = Except.error e → isTransportError e = true) ∧
    (∀ e, (c.get_persona persona_id net).1 = Except.error e →
        isTransportError e = true) ∧
    ∀ e, ¬ (isRemoteError e = true ∧ isTransportError e = true) := by
  refine ⟨?_, ?_, ?_, remote_transport_disjoint⟩
  · intro e he
    have hcall : (c.call_tool tool args net).2.1 = callToolHandle c.mcp_url net := rfl
    rw [hcall] at he
    cases net with
    | networkFailure msg =>
        simp only [callToolHandle, Except.error.injEq] at he
        subst he
        exact Or.inl (isTransportError_request_failed _)
    | response status reason body =>
        cases hrs : raisesForStatus status with
        | true =>
            simp only [callToolHandle, hrs, if_true, Except.error.injEq] at he
            subst he
            exact Or.inl (isTransportError_request_failed _)
        | false =>
            obtain ⟨fields, rfl, herrshape⟩ := h
            rw [callToolHandle_obj c.mcp_url status reason fields hrs] at he
            cases hl : Json.lookup fields "error" with
            | none => rw [hl] at he; simp at he
            | some v =>
                obtain ⟨efields, rfl⟩ := herrshape v hl
                rw [hl] at he
                simp only [Except.error.injEq] at he
                subst he
                exact Or.inr (isRemoteError_mcp_error _)
  · intro e he
    cases net with
    | networkFailure msg =>
        simp only [PersonasMCPClient.get_personas, raiseForStatus,
          Except.error.injEq] at he
        subst he
        rfl
    | response status reason body =>
        cases hrs : raisesForStatus status with
        | true =>
            simp only [PersonasMCPClient.get_personas, raiseForStatus, hrs,
              if_true, Except.error.injEq] at he
            subst he
            rfl
        | false =>
            simp [PersonasMCPClient.get_personas, raiseForStatus, hrs] at he
  · intro e he
    cases net with
    | networkFailure msg =>
        simp only [PersonasMCPClient.get_persona, raiseForStatus,
          Except.error.injEq] at he
        subst he
        rfl
    | response status reason body =>
        cases hrs : raisesForStatus status with
        | true =>
            simp only [PersonasMCPClient.get_persona, raiseForStatus, hrs,
              if_true, Except.error.injEq] at he
            subst he
            rfl
        | false =>
            simp [PersonasMCPClient.get_persona, raiseForStatus, hrs] at he

/-- Witness for C9 amended at a simulated HTTP 500 with an empty-mapping
body: the error `get_personas` surfaces there is of the transport kind. -/
theorem C9_two_error_kinds_amended_witness :
    isTransportError (PyErr.requestException
      (httpErrorMsg 500 "Internal Server Error"
        ("http://localhost:3000/api" ++ "/personas"))) = true :=
  (C9_two_error_kinds_amended
    (PersonasMCPClient.init "http://localhost:3000/mcp" "http://localhost:3000/api")
    "recommend-persona" "security-analyst" (Json.obj [])
    (HttpOutcome.response 500 "Internal Server Error" (Json.obj []))
    ⟨[], rfl, fun v hv => by simp [Json.lookup] at hv⟩).2.1
    (PyErr.requestException
      (httpErrorMsg 500 "Internal Server Error"
        ("http://localhost:3000/api" ++ "/personas")))
    rfl

/-- C10: neither `get_personas` nor `get_persona` changes any field of
the client — in particular the request-id counter — whatever the HTTP
outcome. -/
theorem C10_rest_frame (c : PersonasMCPClient) (persona_id : String)
    (net net' : HttpOutcome) :
    (c.get_personas net).2 = c ∧ (c.get_persona persona_id net').2 = c := by
  constructor
  · cases net with
    | networkFailure msg => rfl
    | response status reason body =>
        cases hrs : raisesForStatus status <;>
          simp [PersonasMCPClient.get_personas, raiseForStatus, hrs]
  · cases net' with
    | networkFailure msg => rfl
    | response status reason body =>
        cases hrs : raisesForStatus status <;>
          simp [PersonasMCPClient.get_persona, raiseForStatus, hrs]
